import Mathlib

/-!
Verification of the conversation state machine and response-classification
protocol of the talk-to-my-usecases application.

The embedding follows the Python source:
* `src/utils/api.py` — `fetch_dx_tool_suggestions` (response validation and
  legacy normalization),
* `src/frontend/app.py` — the single-step flow handlers,
* `src/frontend/streamlit_utils.py` — the multi-step flow handlers,
* `src/frontend/helpers.py` — session initialization and reset.

A model response is a JSON object; we embed it as a record of optional
fields, one per key that the program reads (`none` = key absent).  The
Streamlit session state is embedded as a record of the keys appearing in
`helpers.empty_session_state`.  `st.rerun()` aborts the running script, so a
handler ends when it has finished mutating the session state; a handler that
would raise an uncaught `KeyError` (subscripting a missing key) is embedded
as returning `none`.
-/

namespace TalkToMyUseCases

/-- A chat message, as in the OpenAI message parameter dictionaries. -/
structure Message where
  role : String
  content : String
deriving Repr, DecidableEq

/-- One entry of the `tool_combinations` list of a solution payload. -/
structure ToolCombo where
  tool : String
  purpose : String
  todos : List String
deriving Repr, DecidableEq

/-- A parsed JSON object from the model, restricted to the keys the program
reads.  A field is `none` when the key is absent from the object. -/
structure ParsedResponse where
  type : Option String
  message : Option String
  questions : Option (List String)
  tools : Option (List String)
  tool : Option String
  primary_tool : Option String
  tool_combinations : Option (List ToolCombo)
  todos : Option (List String)
deriving Repr, DecidableEq

/-- The error dictionaries built in the `except` clauses of
`fetch_dx_tool_suggestions`: `{"type": "error", "message": m}`. -/
def errorResponse (m : String) : ParsedResponse :=
  { type := some "error", message := some m, questions := none, tools := none,
    tool := none, primary_tool := none, tool_combinations := none, todos := none }

/-- `api.py` lines 384-392: promotion of a legacy singular `tool` payload,
run when `"tool" in parsed_response and "tools" not in parsed_response`.
The branch runs only after the `todos` presence check, so `p.todos.getD []`
never takes its default there. -/
def promote_legacy_tool (p : ParsedResponse) : ParsedResponse :=
  match p.tool with
  | none => p
  | some t =>
    { p with
      tools := some [t]
      primary_tool := some t
      tool_combinations :=
        match p.tool_combinations with
        | none => some [⟨t, "主要な解決手段", p.todos.getD []⟩]
        | some tc => some tc }

/-- `api.py` lines 383-392: the in-place mutation step — legacy promotion runs
when the type is `"solution"`, `"tool"` is present and `"tools"` is absent. -/
def normalize_solution_shape (p : ParsedResponse) : ParsedResponse :=
  if p.type = some "solution" ∧ p.tool.isSome ∧ p.tools = none then
    promote_legacy_tool p
  else p

/-- `api.py` lines 375-396: the manual validation of the parsed response.
Raised `ValueError`s are embedded as `Except.error` carrying the message. -/
def validate_and_normalize (p : ParsedResponse) : Except String ParsedResponse :=
  if p.type = none ∨ p.message = none then
    Except.error "AIの応答に必要な'type'または'message'フィールドが含まれていません。"
  else if p.type = some "solution" ∧ p.tools = none ∧ p.tool = none then
    Except.error "AIの'solution'タイプの応答に必要な'tools'または'tool'フィールドが含まれていません。"
  else if p.type = some "solution" ∧ p.todos = none then
    Except.error "AIの'solution'タイプの応答に必要な'todos'フィールドが含まれていません。"
  else if (normalize_solution_shape p).type = some "questions" ∧
          (normalize_solution_shape p).questions = none then
    Except.error "AIの'questions'タイプの応答に必要な'questions'フィールドが含まれていません。"
  else
    Except.ok (normalize_solution_shape p)

/-- The possible contents of `completion.choices[0].message.content` once the
model call has returned. -/
inductive RawContent
  | notJson (raw : String)
  | jsonNonObject
  | jsonObject (p : ParsedResponse)
deriving Repr, DecidableEq

/-- Outcome of the effectful part of the `try` block of
`fetch_dx_tool_suggestions` (the model call and telemetry submission):
an `openai.APIError`, any other exception, or a returned payload. -/
inductive ModelCall
  | apiError (e : String)
  | otherError (e : String)
  | returns (raw : RawContent)
deriving Repr, DecidableEq

/-- Outcome of assembling the system prompt (`fetch_prompts_with_tools`,
including the external tool-catalog fetch) and of
`prepare_telemetry_send` — the statements that run BEFORE the `try` block
of `fetch_dx_tool_suggestions`. -/
inductive PromptPrep
  | ok
  | raises (e : String)
deriving Repr, DecidableEq

/-- The body of the `try` block applied to a returned payload, together with
the `except json.JSONDecodeError` and `except ValueError` handlers
(`api.py` lines 373-409). -/
def handle_raw_content (raw : RawContent) : ParsedResponse :=
  match raw with
  | .notJson _ => errorResponse "AIの応答形式が正しくありません。"
  | .jsonNonObject =>
      errorResponse
        ("AIの応答構造が予期されたものではありません。詳細: " ++
         "AIの応答に必要な'type'または'message'フィールドが含まれていません。")
  | .jsonObject p =>
      match validate_and_normalize p with
      | .ok q => q
      | .error e => errorResponse ("AIの応答構造が予期されたものではありません。詳細: " ++ e)

/-- `api.py` lines 313-413, `fetch_dx_tool_suggestions`.  An exception during
the prompt preparation (which runs before the `try` block) propagates to the
caller and is embedded as `Except.error`; everything raised inside the `try`
block is caught and converted to an error dictionary. -/
def fetch_dx_tool_suggestions (prep : PromptPrep) (call : ModelCall) :
    Except String ParsedResponse :=
  match prep with
  | .raises e => Except.error e
  | .ok =>
    match call with
    | .apiError e => Except.ok (errorResponse ("APIとの通信に失敗しました。詳細: " ++ e))
    | .otherError e => Except.ok (errorResponse ("処理中に予期せぬエラーが発生しました。詳細: " ++ e))
    | .returns raw => Except.ok (handle_raw_content raw)

/-- A model-call outcome that is a failure: an API error, another exception,
a non-JSON payload, a JSON non-object, or an object failing validation. -/
def callFails : ModelCall → Bool
  | .apiError _ => true
  | .otherError _ => true
  | .returns (.notJson _) => true
  | .returns .jsonNonObject => true
  | .returns (.jsonObject p) =>
      match validate_and_normalize p with
      | .ok _ => false
      | .error _ => true

/-- The Streamlit session state, restricted to the keys of
`helpers.empty_session_state` (the conversation-protocol state).  The stage is
a string, as in the source, which mixes the literals `"INITIAL_INPUT"`,
`"PROCESSING_INITIAL"`, `"AWAITING_ANSWERS"`, `"SHOWING_SOLUTION"` with the
values of the `PromptType` str-enum.  `user_answers` and `uploaded_files` are
insertion-ordered dictionaries, embedded as association lists;
`uploaded_files` maps a filename to its summary (the extracted content is
opaque to the protocol). -/
structure SessionState where
  conversation_stage : String
  user_request : String
  ai_questions : List String
  user_answers : List (String × String)
  dx_solution : Option ParsedResponse
  chat_history : List Message
  questions_asked_flag : Bool
  question_counter : Nat
  uploaded_files : List (String × String)
  file_summaries : List (String × String)
  file_uploader_key : Nat
  user_request_buffer : String
  use_tools_and_descriptions : Bool
deriving Repr, DecidableEq

/-- The values of the `PromptType` str-enum (`schema.py` lines 49-52); as a
`str` enum each member compares equal to its string value. -/
def PromptType.DECISION : String := "decision"

/-- `PromptType.QUESTION = "questions"` (`schema.py` line 51). -/
def PromptType.QUESTION : String := "questions"

/-- `PromptType.SOLUTION = "solution"` (`schema.py` line 52). -/
def PromptType.SOLUTION : String := "solution"

/-- `helpers.py` lines 50-64, `empty_session_state`. -/
def empty_session_state : SessionState :=
  { conversation_stage := "INITIAL_INPUT"
    user_request := ""
    ai_questions := []
    user_answers := []
    dx_solution := none
    chat_history := []
    questions_asked_flag := false
    question_counter := 0
    uploaded_files := []
    file_summaries := []
    file_uploader_key := 0
    user_request_buffer := ""
    use_tools_and_descriptions := true }

/-- `helpers.py` lines 67-70, `state_empty`: every key of
`empty_session_state` is overwritten with its default.  All modeled keys are
in `empty_session_state`, so the result is the default state. -/
def state_empty (_s : SessionState) : SessionState := empty_session_state

/-- `helpers.py` lines 73-78, `clear_data_callback`: `state_empty()` followed
by `st.session_state.file_uploader_key += 1` (used to clear the uploader). -/
def clear_data_callback (s : SessionState) : SessionState :=
  let s1 := state_empty s
  { s1 with file_uploader_key := s1.file_uploader_key + 1 }

namespace App

/-- `app.py` lines 33-50, `handle_first_question`: bulk-assign the keys of
`session_first_question`; the remaining keys keep their previous values. -/
def handle_first_question (s : SessionState) (combined_input : String) : SessionState :=
  { s with
    chat_history := [⟨"user", combined_input⟩]
    conversation_stage := "PROCESSING_INITIAL"
    questions_asked_flag := false
    ai_questions := []
    user_answers := []
    dx_solution := none
    question_counter := 1 }

/-- The forced solution dictionary synthesized in `app.py` lines 90-100 when
the question budget is exhausted (`m` is `ai_response["message"]`). -/
def forced_solution (ai : ParsedResponse) (m : String) : ParsedResponse :=
  { type := none
    message := some ("質問回数の制限に達したため、限られた情報に基づく提案となっています: " ++ m)
    questions := none
    tools := some (ai.tools.getD [ai.tool.getD "利用可能な最適なDXツール"])
    tool := none
    primary_tool := some (ai.primary_tool.getD (ai.tool.getD "利用可能な最適なDXツール"))
    tool_combinations := some (ai.tool_combinations.getD
      [⟨ai.tool.getD "利用可能な最適なDXツール", "主要な解決手段",
        ai.todos.getD ["現時点で考えられる最適なToDo"]⟩])
    todos := some (ai.todos.getD ["現時点で考えられる最適なToDo"]) }

/-- `app.py` lines 84-116, `_handle_questions_response` (single-step variant):
checks the round budget before accepting a Questions classification.  `none`
embeds an uncaught `KeyError` on `ai_response["message"]` resp.
`ai_response["questions"]`. -/
def handle_questions_response (s : SessionState) (ai : ParsedResponse) :
    Option SessionState :=
  if s.question_counter ≥ 5 then
    match ai.message with
    | none => none
    | some m =>
        some { s with
               dx_solution := some (forced_solution ai m)
               conversation_stage := "SHOWING_SOLUTION" }
  else
    match ai.questions with
    | none => none
    | some qs =>
        some { s with
               ai_questions := qs
               chat_history := s.chat_history ++
                 qs.map (fun q => ⟨"assistant", "質問: " ++ q⟩)
               conversation_stage := "AWAITING_ANSWERS"
               questions_asked_flag := true }

/-- `app.py` lines 118-122, `_handle_solution_response`. -/
def handle_solution_response (s : SessionState) (ai : ParsedResponse) : SessionState :=
  { s with dx_solution := some ai, conversation_stage := "SHOWING_SOLUTION" }

/-- `app.py` lines 53-82, `handle_single_step_ai_response`.  The input is
`none` when `ai_response` is falsy.  The `message` key is subscripted before
the `type` key; a missing key is an uncaught `KeyError`, embedded as `none`. -/
def handle_single_step_ai_response (s : SessionState) (ai : Option ParsedResponse) :
    Option SessionState :=
  match ai with
  | none => some { s with conversation_stage := "INITIAL_INPUT" }
  | some r =>
    if r.type = some "error" then
      some { s with conversation_stage := "INITIAL_INPUT" }
    else
      match r.message with
      | none => none
      | some m =>
        match r.type with
        | none => none
        | some t =>
          if t = "questions" then
            handle_questions_response
              { s with chat_history := s.chat_history ++ [⟨"assistant", m⟩] } r
          else if t = "solution" then
            some (handle_solution_response
              { s with chat_history := s.chat_history ++ [⟨"assistant", m⟩] } r)
          else
            some { s with
                   chat_history := s.chat_history ++ [⟨"assistant", m⟩]
                   conversation_stage := "INITIAL_INPUT" }

/-- `app.py` lines 167-179, `_update_session_with_answers`. -/
def update_session_with_answers (s : SessionState)
    (temp_answers : List (String × String)) (user_responses : List Message) :
    SessionState :=
  { s with
    user_answers := temp_answers
    chat_history := s.chat_history ++ user_responses
    conversation_stage := "PROCESSING_INITIAL"
    question_counter := s.question_counter + 1 }

end App

/-- The validation loop of `_process_user_answers` (`app.py` lines 147-161 =
`streamlit_utils.py` lines 113-127): walks the answers in insertion order;
at the first falsy answer it surfaces one warning and breaks with
`all_answered = False`; otherwise it collects one user message per answer.
Returns `(all_answered, user_responses_for_history, warnings)`. -/
def collect_answers : List (String × String) → Bool × List Message × List String
  | [] => (true, [], [])
  | qa :: rest =>
    if qa.2 = "" then
      (false, [], ["質問「" ++ qa.1 ++ "」に回答してください。"])
    else
      ((collect_answers rest).1,
       ⟨"user", "(質問「" ++ qa.1 ++ "」への回答) " ++ qa.2⟩ :: (collect_answers rest).2.1,
       (collect_answers rest).2.2)

/-- The question text of the first blank answer of the submission, in
insertion order, if any — the question the `break`ing loop iteration warns
about. -/
def first_blank : List (String × String) → Option String
  | [] => none
  | qa :: rest => if qa.2 = "" then some qa.1 else first_blank rest

namespace App

/-- `app.py` lines 140-165, `_process_user_answers`: proceeds to
`_update_session_with_answers` only when all questions are answered.  Returns
the updated session state and the surfaced warnings. -/
def process_user_answers (s : SessionState) (temp_answers : List (String × String)) :
    SessionState × List String :=
  if (collect_answers temp_answers).1 then
    (update_session_with_answers s temp_answers (collect_answers temp_answers).2.1,
     (collect_answers temp_answers).2.2)
  else
    (s, (collect_answers temp_answers).2.2)

end App

namespace SU

/-- `streamlit_utils.py` lines 37-65, `handle_ai_response` (multi-step
variant).  `st.rerun()` aborts the script, so only the session-state effect is
kept; on a non-error response the handler returns the response type, which the
caller assigns to `conversation_stage`. -/
def handle_ai_response (s : SessionState) (ai : Option ParsedResponse) :
    Option (SessionState × String) :=
  match ai with
  | none => some ({ s with conversation_stage := "INITIAL_INPUT" }, "INITIAL_INPUT")
  | some r =>
    if r.type = some "error" then
      some ({ s with conversation_stage := "INITIAL_INPUT" }, "INITIAL_INPUT")
    else
      match r.message with
      | none => none
      | some m =>
        match r.type with
        | none => none
        | some t =>
          if t = PromptType.QUESTION ∨ t = PromptType.SOLUTION then
            some ({ s with chat_history := s.chat_history ++ [⟨"assistant", m⟩] }, t)
          else
            some ({ s with
                    chat_history := s.chat_history ++ [⟨"assistant", m⟩]
                    conversation_stage := "INITIAL_INPUT" }, "INITIAL_INPUT")

/-- `streamlit_utils.py` lines 67-82, `_handle_questions_response`
(multi-step variant): no round-budget check — it always stores the questions
and moves to AWAITING_ANSWERS. -/
def handle_questions_response (s : SessionState) (ai : ParsedResponse) :
    Option SessionState :=
  match ai.questions with
  | none => none
  | some qs =>
      some { s with
             ai_questions := qs
             chat_history := s.chat_history ++
               qs.map (fun q => ⟨"assistant", "質問: " ++ q⟩)
             conversation_stage := "AWAITING_ANSWERS"
             questions_asked_flag := true }

/-- `streamlit_utils.py` lines 133-145, `_update_session_with_answers`: as in
`app.py` but the next stage is `PromptType.DECISION`. -/
def update_session_with_answers (s : SessionState)
    (temp_answers : List (String × String)) (user_responses : List Message) :
    SessionState :=
  { s with
    user_answers := temp_answers
    chat_history := s.chat_history ++ user_responses
    conversation_stage := PromptType.DECISION
    question_counter := s.question_counter + 1 }

/-- `streamlit_utils.py` lines 106-131, `_process_user_answers`. -/
def process_user_answers (s : SessionState) (temp_answers : List (String × String)) :
    SessionState × List String :=
  if (collect_answers temp_answers).1 then
    (update_session_with_answers s temp_answers (collect_answers temp_answers).2.1,
     (collect_answers temp_answers).2.2)
  else
    (s, (collect_answers temp_answers).2.2)

end SU

/-- A user/model interaction of the single-step variant: submitting a (new)
first request, receiving a model response (handled by
`handle_single_step_ai_response`), submitting the answer form, or pressing
the reset button. -/
inductive Event
  | firstQuestion (input : String)
  | aiResponse (ai : Option ParsedResponse)
  | submitAnswers (answers : List (String × String))
  | reset
deriving Repr, DecidableEq

/-- One transition of the single-step variant, driven by an `Event`.  `none`
embeds a handler crash (uncaught `KeyError`). -/
def step (s : SessionState) : Event → Option SessionState
  | .firstQuestion input => some (App.handle_first_question s input)
  | .aiResponse ai => App.handle_single_step_ai_response s ai
  | .submitAnswers answers => some (App.process_user_answers s answers).1
  | .reset => some (clear_data_callback s)

/-- Run a sequence of events from a state; `none` as soon as a step crashes. -/
def run (s : SessionState) : List Event → Option SessionState
  | [] => some s
  | e :: es =>
    match step s e with
    | none => none
    | some s1 => run s1 es

/-- Events other than a first-question submission and an explicit reset. -/
def ordinaryEvent : Event → Bool
  | .firstQuestion _ => false
  | .reset => false
  | .aiResponse _ => true
  | .submitAnswers _ => true



/-- Promotion preserves the discriminator and the message. -/
theorem promote_legacy_tool_type_message (p : ParsedResponse) :
    (promote_legacy_tool p).type = p.type ∧
    (promote_legacy_tool p).message = p.message := by
  unfold promote_legacy_tool
  cases p.tool <;> simp

/-- The normalization step preserves the discriminator and the message. -/
theorem normalize_solution_shape_type_message (p : ParsedResponse) :
    (normalize_solution_shape p).type = p.type ∧
    (normalize_solution_shape p).message = p.message := by
  unfold normalize_solution_shape
  split
  · exact promote_legacy_tool_type_message p
  · exact ⟨rfl, rfl⟩

/-- A successfully validated response keeps the discriminator and message of
the payload; in particular both keys are present. -/
theorem validate_ok_fields {p q : ParsedResponse}
    (h : validate_and_normalize p = Except.ok q) :
    q.type = p.type ∧ q.message = p.message ∧ p.type ≠ none ∧ p.message ≠ none := by
  unfold validate_and_normalize at h
  split at h
  · exact absurd h (by simp)
  · rename_i hnone
    push_neg at hnone
    split at h
    · exact absurd h (by simp)
    · split at h
      · exact absurd h (by simp)
      · split at h
        · exact absurd h (by simp)
        · obtain ⟨h1, h2⟩ := normalize_solution_shape_type_message p
          cases h
          exact ⟨h1, h2, hnone.1, hnone.2⟩

/-- Counterexample to claim C2 as stated: a legacy solution payload that
already carries a `tool_combinations` entry keeps that entry — the normalizer
synthesizes the primary-solution entry only when the key is absent, so the
claimed single synthesized entry (`⟨"Tool A", 主要な解決手段, ["t1"]⟩`) is not
produced here. -/
theorem legacy_payload_keeps_tool_combinations_cex :
    fetch_dx_tool_suggestions .ok (.returns (.jsonObject
        ⟨some "solution", some "m", none, none, some "Tool A", none,
         some [⟨"Other", "既存の組み合わせ", ["z"]⟩], some ["t1"]⟩)) =
      Except.ok ⟨some "solution", some "m", none, some ["Tool A"], some "Tool A",
        some "Tool A", some [⟨"Other", "既存の組み合わせ", ["z"]⟩], some ["t1"]⟩ ∧
    some [(⟨"Other", "既存の組み合わせ", ["z"]⟩ : ToolCombo)] ≠
      some [(⟨"Tool A", "主要な解決手段", ["t1"]⟩ : ToolCombo)] :=
  ⟨rfl, by decide⟩

/-- Claim C2 amended: a payload parsing as an object with discriminator
"solution", a message, todos and a legacy singular `tool` string but no
`tools` field is normalized by promotion to `tools = [tool]` and
`primary_tool = tool`; the single synthesized `tool_combinations` entry —
tool, the fixed primary-solution label as purpose, and todos copied from the
top-level todos — is produced only when the payload carries no
`tool_combinations` key, while a payload carrying its own `tool_combinations`
keeps it unchanged. -/
theorem legacy_tool_promotion (p : ParsedResponse) (t m : String) (td : List String)
    (h1 : p.type = some "solution") (h2 : p.message = some m) (h3 : p.todos = some td)
    (h4 : p.tool = some t) (h5 : p.tools = none) :
    fetch_dx_tool_suggestions .ok (.returns (.jsonObject p)) =
      Except.ok (promote_legacy_tool p) ∧
    (promote_legacy_tool p).tools = some [t] ∧
    (promote_legacy_tool p).primary_tool = some t ∧
    (p.tool_combinations = none →
      (promote_legacy_tool p).tool_combinations = some [⟨t, "主要な解決手段", td⟩]) ∧
    (∀ tc, p.tool_combinations = some tc →
      (promote_legacy_tool p).tool_combinations = some tc) := by
  refine ⟨?_, ?_, ?_, ?_, ?_⟩
  · simp [fetch_dx_tool_suggestions, handle_raw_content, validate_and_normalize,
          normalize_solution_shape, promote_legacy_tool, h1, h2, h3, h4, h5]
  · simp [promote_legacy_tool, h4]
  · simp [promote_legacy_tool, h4]
  · intro htc
    simp [promote_legacy_tool, h4, h3, htc]
  · intro tc htc
    simp [promote_legacy_tool, h4, htc]

/-- Witness for the amended claim C2, at the spec's round-trip payload
`{"type":"solution","tool":"Tool A","todos":["t1"],"message":"m"}` (no
`tool_combinations` key, so the entry is synthesized). -/
theorem legacy_tool_promotion_witness :
    fetch_dx_tool_suggestions .ok (.returns (.jsonObject
        ⟨some "solution", some "m", none, none, some "Tool A", none, none, some ["t1"]⟩)) =
      Except.ok (promote_legacy_tool
        ⟨some "solution", some "m", none, none, some "Tool A", none, none, some ["t1"]⟩) ∧
    (promote_legacy_tool
        ⟨some "solution", some "m", none, none, some "Tool A", none, none, some ["t1"]⟩).tools =
      some ["Tool A"] ∧
    (promote_legacy_tool
        ⟨some "solution", some "m", none, none, some "Tool A", none, none, some ["t1"]⟩).primary_tool =
      some "Tool A" ∧
    (promote_legacy_tool
        ⟨some "solution", some "m", none, none, some "Tool A", none, none, some ["t1"]⟩).tool_combinations =
      some [⟨"Tool A", "主要な解決手段", ["t1"]⟩] := by
  have h := legacy_tool_promotion
    ⟨some "solution", some "m", none, none, some "Tool A", none, none, some ["t1"]⟩
    "Tool A" "m" ["t1"] rfl rfl rfl rfl rfl
  exact ⟨h.1, h.2.1, h.2.2.1, h.2.2.2.1 rfl⟩

/-- Claim C9: the reset callback is idempotent — applying it twice yields
exactly the state of applying it once, and that state is the fresh default
(stage INITIAL_INPUT, empty history, counter 0, no solution, no uploads)
with the file-uploader widget key rekeyed by the post-reset increment. -/
theorem reset_idempotent (s : SessionState) :
    clear_data_callback (clear_data_callback s) = clear_data_callback s ∧
    clear_data_callback s =
      { empty_session_state with
        file_uploader_key := empty_session_state.file_uploader_key + 1 } ∧
    (clear_data_callback s).conversation_stage = "INITIAL_INPUT" ∧
    (clear_data_callback s).chat_history = [] ∧
    (clear_data_callback s).question_counter = 0 ∧
    (clear_data_callback s).dx_solution = none ∧
    (clear_data_callback s).uploaded_files = [] :=
  ⟨rfl, rfl, rfl, rfl, rfl, rfl, rfl⟩

/-- Counterexample to claim C4 as stated: on the object
`{"type":"analysis","message":"m"}` the normalizer returns the object itself,
passed through with its unrecognized discriminator, not an Error value. -/
theorem unrecognized_type_passed_through_cex :
    fetch_dx_tool_suggestions .ok (.returns (.jsonObject
        ⟨some "analysis", some "m", none, none, none, none, none, none⟩)) =
      Except.ok ⟨some "analysis", some "m", none, none, none, none, none, none⟩ ∧
    (⟨some "analysis", some "m", none, none, none, none, none, none⟩ :
        ParsedResponse).type ≠ some "error" :=
  ⟨rfl, by decide⟩

/-- Claim C4 amended: the normalizer passes an object with an unrecognized
discriminator through unchanged; it is the single-step response handler that
fails closed on it — it surfaces the unexpected-response-type error and
returns the stage to INITIAL_INPUT (after appending the message to the chat
history), never storing the object as a questions or solution outcome. -/
theorem unrecognized_type_collapses_to_initial_input
    (p : ParsedResponse) (t m : String) (s : SessionState)
    (h1 : p.type = some t) (h2 : p.message = some m)
    (hq : t ≠ "questions") (hs : t ≠ "solution") (he : t ≠ "error") :
    fetch_dx_tool_suggestions .ok (.returns (.jsonObject p)) = Except.ok p ∧
    App.handle_single_step_ai_response s (some p) =
      some { s with
             chat_history := s.chat_history ++ [⟨"assistant", m⟩]
             conversation_stage := "INITIAL_INPUT" } := by
  constructor
  · simp [fetch_dx_tool_suggestions, handle_raw_content, validate_and_normalize,
          normalize_solution_shape, h1, h2, hq, hs]
  · simp [App.handle_single_step_ai_response, h1, h2, hq, hs, he]

/-- Witness for the amended claim C4, at the payload
`{"type":"analysis","message":"m"}` and the fresh session state. -/
theorem unrecognized_type_collapses_to_initial_input_witness :
    fetch_dx_tool_suggestions .ok (.returns (.jsonObject
        ⟨some "analysis", some "m", none, none, none, none, none, none⟩)) =
      Except.ok ⟨some "analysis", some "m", none, none, none, none, none, none⟩ ∧
    App.handle_single_step_ai_response empty_session_state (some
        ⟨some "analysis", some "m", none, none, none, none, none, none⟩) =
      some { empty_session_state with
             chat_history := empty_session_state.chat_history ++ [⟨"assistant", "m"⟩]
             conversation_stage := "INITIAL_INPUT" } := by
  exact unrecognized_type_collapses_to_initial_input
    ⟨some "analysis", some "m", none, none, none, none, none, none⟩
    "analysis" "m" empty_session_state rfl rfl (by decide) (by decide) (by decide)

/-- Counterexample to claim C10 as stated: an exception raised while
assembling the system prompt (e.g. a tool-catalog fetch failure) occurs
before the `try` block of `fetch_dx_tool_suggestions` and propagates to the
caller instead of being returned as an error dictionary. -/
theorem prompt_prep_exception_propagates_cex :
    fetch_dx_tool_suggestions (.raises "catalog fetch failed") (.apiError "x") =
      Except.error "catalog fetch failed" := rfl

/-- Claim C10 amended: once the system prompt has been assembled, every
outcome of `fetch_dx_tool_suggestions` is a returned dictionary carrying both
a "type" and a "message" key, and every failure path inside the `try` block
(API error, any other exception, JSON decode failure, non-object payload, or
schema violation) yields `type = "error"`; no exception from the `try` block
reaches the caller. -/
theorem fetch_never_raises_inside_try (call : ModelCall) :
    (∃ r, fetch_dx_tool_suggestions .ok call = Except.ok r) ∧
    (∀ r, fetch_dx_tool_suggestions .ok call = Except.ok r →
      r.type.isSome = true ∧ r.message.isSome = true ∧
      (callFails call = true → r.type = some "error")) := by
  constructor
  · cases call with
    | apiError e => exact ⟨_, rfl⟩
    | otherError e => exact ⟨_, rfl⟩
    | returns raw => exact ⟨_, rfl⟩
  · intro r hr
    cases call with
    | apiError e =>
      simp [fetch_dx_tool_suggestions] at hr
      subst hr
      simp [errorResponse, callFails]
    | otherError e =>
      simp [fetch_dx_tool_suggestions] at hr
      subst hr
      simp [errorResponse, callFails]
    | returns raw =>
      cases raw with
      | notJson raws =>
        simp [fetch_dx_tool_suggestions, handle_raw_content] at hr
        subst hr
        simp [errorResponse, callFails]
      | jsonNonObject =>
        simp [fetch_dx_tool_suggestions, handle_raw_content] at hr
        subst hr
        simp [errorResponse, callFails]
      | jsonObject p =>
        simp [fetch_dx_tool_suggestions, handle_raw_content] at hr
        cases hv : validate_and_normalize p with
        | ok q =>
          rw [hv] at hr
          subst hr
          obtain ⟨ht, hm, ht2, hm2⟩ := validate_ok_fields hv
          refine ⟨?_, ?_, ?_⟩
          · rw [ht]; exact Option.isSome_iff_ne_none.mpr ht2
          · rw [hm]; exact Option.isSome_iff_ne_none.mpr hm2
          · intro hfail
            simp [callFails, hv] at hfail
        | error e =>
          rw [hv] at hr
          subst hr
          simp [errorResponse, callFails]

/-- Witness for the amended claim C10, at a non-JSON model payload. -/
theorem fetch_never_raises_inside_try_witness :
    (errorResponse "AIの応答形式が正しくありません。").type.isSome = true ∧
    (errorResponse "AIの応答形式が正しくありません。").message.isSome = true ∧
    (callFails (.returns (.notJson "x")) = true →
      (errorResponse "AIの応答形式が正しくありません。").type = some "error") :=
  (fetch_never_raises_inside_try (.returns (.notJson "x"))).2 _ rfl

/-- Counterexample to claim C1 as stated: the multi-step variant's
questions-response handler (`streamlit_utils._handle_questions_response`)
performs no round-budget check, so at `question_counter = 5` (≥ max_rounds)
a Questions classification still yields stage AWAITING_ANSWERS. -/
theorem multistep_handler_ignores_round_budget_cex :
    ({ empty_session_state with question_counter := 5 } : SessionState).question_counter ≥ 5 ∧
    (SU.handle_questions_response { empty_session_state with question_counter := 5 }
        ⟨some "questions", some "m", some ["q1"], none, none, none, none, none⟩).map
      SessionState.conversation_stage = some "AWAITING_ANSWERS" :=
  ⟨by decide, rfl⟩

/-- Claim C1 amended: in the single-step variant, whenever
`question_counter ≥ 5` and the response is handled as Questions, the handler
yields stage SHOWING_SOLUTION (never AWAITING_ANSWERS) with a Solution
synthesized from the partial fields of the response — placeholder tool and
single placeholder todo as fallbacks — and the solution message prefixed with
the forced-termination notice; the multi-step variant's handler has no such
check and can land in AWAITING_ANSWERS at the budget (see the
counterexample). -/
theorem forced_termination_single_step (s : SessionState) (ai : ParsedResponse) (m : String)
    (hc : s.question_counter ≥ 5) (hm : ai.message = some m) :
    App.handle_questions_response s ai =
      some { s with
             dx_solution := some (App.forced_solution ai m)
             conversation_stage := "SHOWING_SOLUTION" } ∧
    (App.forced_solution ai m).message =
      some ("質問回数の制限に達したため、限られた情報に基づく提案となっています: " ++ m) ∧
    (ai.tool = none → ai.tools = none →
      (App.forced_solution ai m).tools = some ["利用可能な最適なDXツール"]) ∧
    (ai.todos = none →
      (App.forced_solution ai m).todos = some ["現時点で考えられる最適なToDo"]) := by
  refine ⟨?_, rfl, ?_, ?_⟩
  · simp [App.handle_questions_response, hc, hm]
  · intro h1 h2
    simp [App.forced_solution, h1, h2]
  · intro h1
    simp [App.forced_solution, h1]

/-- Witness for the amended claim C1, at a questions response carrying no
tool fields and a state with `question_counter = 5`. -/
theorem forced_termination_single_step_witness :
    App.handle_questions_response { empty_session_state with question_counter := 5 }
        ⟨some "questions", some "m", some ["q1"], none, none, none, none, none⟩ =
      some { ({ empty_session_state with question_counter := 5 } : SessionState) with
             dx_solution := some (App.forced_solution
               ⟨some "questions", some "m", some ["q1"], none, none, none, none, none⟩ "m")
             conversation_stage := "SHOWING_SOLUTION" } ∧
    (App.forced_solution
        ⟨some "questions", some "m", some ["q1"], none, none, none, none, none⟩ "m").tools =
      some ["利用可能な最適なDXツール"] := by
  have h := forced_termination_single_step { empty_session_state with question_counter := 5 }
    ⟨some "questions", some "m", some ["q1"], none, none, none, none, none⟩ "m"
    (by decide) rfl
  exact ⟨h.1, h.2.2.1 rfl rfl⟩

/-- Claim C3: every model-invocation failure or malformed model output (API
error, other exception, non-parseable payload, non-object payload, or
schema-violating object) is classified as Error by the fetch routine, and on
such a response both response handlers return the conversation stage to
INITIAL_INPUT while leaving `question_counter` and `chat_history`
unchanged. -/
theorem failed_attempt_returns_to_initial_input (call : ModelCall) (r : ParsedResponse)
    (s : SessionState)
    (hf : callFails call = true)
    (hr : fetch_dx_tool_suggestions .ok call = Except.ok r) :
    r.type = some "error" ∧
    App.handle_single_step_ai_response s (some r) =
      some { s with conversation_stage := "INITIAL_INPUT" } ∧
    SU.handle_ai_response s (some r) =
      some ({ s with conversation_stage := "INITIAL_INPUT" }, "INITIAL_INPUT") ∧
    (App.handle_single_step_ai_response s (some r)).map SessionState.question_counter =
      some s.question_counter ∧
    (App.handle_single_step_ai_response s (some r)).map SessionState.chat_history =
      some s.chat_history := by
  have htype : r.type = some "error" := by
    cases call with
    | apiError e =>
      simp [fetch_dx_tool_suggestions] at hr
      subst hr; rfl
    | otherError e =>
      simp [fetch_dx_tool_suggestions] at hr
      subst hr; rfl
    | returns raw =>
      cases raw with
      | notJson raws =>
        simp [fetch_dx_tool_suggestions, handle_raw_content] at hr
        subst hr; rfl
      | jsonNonObject =>
        simp [fetch_dx_tool_suggestions, handle_raw_content] at hr
        subst hr; rfl
      | jsonObject p =>
        simp [fetch_dx_tool_suggestions, handle_raw_content] at hr
        cases hv : validate_and_normalize p with
        | ok q => simp [callFails, hv] at hf
        | error e =>
          rw [hv] at hr
          subst hr; rfl
  have happ : App.handle_single_step_ai_response s (some r) =
      some { s with conversation_stage := "INITIAL_INPUT" } := by
    simp [App.handle_single_step_ai_response, htype]
  refine ⟨htype, happ, ?_, ?_, ?_⟩
  · simp [SU.handle_ai_response, htype]
  · rw [happ]; rfl
  · rw [happ]; rfl

/-- Witness for claim C3, at a non-JSON model payload and the fresh session
state. -/
theorem failed_attempt_returns_to_initial_input_witness :
    (errorResponse "AIの応答形式が正しくありません。").type = some "error" ∧
    App.handle_single_step_ai_response empty_session_state
        (some (errorResponse "AIの応答形式が正しくありません。")) =
      some { empty_session_state with conversation_stage := "INITIAL_INPUT" } :=
  have h := failed_attempt_returns_to_initial_input (.returns (.notJson "x"))
    (errorResponse "AIの応答形式が正しくありません。") empty_session_state rfl rfl
  ⟨h.1, h.2.1⟩
/-- Counterexample to claim C6 as stated: submitting the (sole, answered)
pending question from AWAITING_ANSWERS moves the stage to PROCESSING_INITIAL
but leaves `ai_questions` non-empty — the pending-questions list is not
cleared by the transition that leaves AWAITING_ANSWERS. -/
theorem answers_submission_pending_questions_cex :
    (App.process_user_answers { empty_session_state with
        conversation_stage := "AWAITING_ANSWERS"
        ai_questions := ["q1"] } [("q1", "a1")]).1.conversation_stage =
      "PROCESSING_INITIAL" ∧
    (App.process_user_answers { empty_session_state with
        conversation_stage := "AWAITING_ANSWERS"
        ai_questions := ["q1"] } [("q1", "a1")]).1.ai_questions = ["q1"] :=
  ⟨rfl, rfl⟩

/-- Claim C6 amended: submitting a fully-answered form moves the stage to
PROCESSING_INITIAL but leaves `ai_questions` exactly as it was (so the
pending-questions list can be non-empty outside AWAITING_ANSWERS);
`ai_questions` is emptied only by the first-question initialization and by
reset. -/
theorem answers_submission_keeps_pending_questions (s : SessionState)
    (answers : List (String × String)) (h : (collect_answers answers).1 = true) :
    (App.process_user_answers s answers).1.ai_questions = s.ai_questions ∧
    (App.process_user_answers s answers).1.conversation_stage = "PROCESSING_INITIAL" ∧
    (∀ input, (App.handle_first_question s input).ai_questions = []) ∧
    (clear_data_callback s).ai_questions = [] := by
  refine ⟨?_, ?_, fun _ => rfl, rfl⟩ <;>
    simp [App.process_user_answers, h, App.update_session_with_answers]

/-- Witness for the amended claim C6, at a state holding one pending
question and a submission answering it. -/
theorem answers_submission_keeps_pending_questions_witness :
    (App.process_user_answers { empty_session_state with ai_questions := ["q1"] }
        [("q1", "a1")]).1.ai_questions =
      ({ empty_session_state with ai_questions := ["q1"] } : SessionState).ai_questions ∧
    (App.process_user_answers { empty_session_state with ai_questions := ["q1"] }
        [("q1", "a1")]).1.conversation_stage = "PROCESSING_INITIAL" :=
  have h := answers_submission_keeps_pending_questions
    { empty_session_state with ai_questions := ["q1"] } [("q1", "a1")] rfl
  ⟨h.1, h.2.1⟩

/-- Counterexample to claim C7 as stated: the payload
`{"type":"solution","message":"m","tools":["A"],"primary_tool":"B","todos":[]}`
passes validation unchanged and is stored as the session's solution, yet its
`primary_tool` "B" is not a member of its `tools` ["A"]. -/
theorem primary_tool_not_in_tools_cex :
    fetch_dx_tool_suggestions .ok (.returns (.jsonObject
        ⟨some "solution", some "m", none, some ["A"], none, some "B", none, some []⟩)) =
      Except.ok ⟨some "solution", some "m", none, some ["A"], none, some "B", none, some []⟩ ∧
    (App.handle_solution_response empty_session_state
        ⟨some "solution", some "m", none, some ["A"], none, some "B", none, some []⟩).dx_solution =
      some ⟨some "solution", some "m", none, some ["A"], none, some "B", none, some []⟩ ∧
    (⟨some "solution", some "m", none, some ["A"], none, some "B", none, some []⟩ :
        ParsedResponse).primary_tool = some "B" ∧
    ("B" : String) ∉
      ((⟨some "solution", some "m", none, some ["A"], none, some "B", none, some []⟩ :
        ParsedResponse).tools.getD []) :=
  ⟨rfl, rfl, rfl, by decide⟩

/-- Claim C7 amended: `primary_tool ∈ tools` is guaranteed for the Solutions
the code itself synthesizes — the legacy single-tool promotion (where both
derive from `tool`) and the forced-termination synthesis when the response
carries neither `tools` nor `primary_tool` (both fall back consistently) —
but not for solutions passed through normal normalization, which keep
whatever fields the payload had (see the counterexample). -/
theorem primary_tool_in_tools_promoted_paths (p : ParsedResponse) (t m : String)
    (td : List String) (ai : ParsedResponse) (m2 : String)
    (h1 : p.type = some "solution") (h2 : p.message = some m) (h3 : p.todos = some td)
    (h4 : p.tool = some t) (h5 : p.tools = none) :
    (∀ q, fetch_dx_tool_suggestions .ok (.returns (.jsonObject p)) = Except.ok q →
        q.primary_tool = some t ∧ t ∈ q.tools.getD []) ∧
    (ai.tools = none → ai.primary_tool = none →
        ∃ pt, (App.forced_solution ai m2).primary_tool = some pt ∧
          pt ∈ (App.forced_solution ai m2).tools.getD []) := by
  constructor
  · have hfetch : fetch_dx_tool_suggestions .ok (.returns (.jsonObject p)) =
        Except.ok (promote_legacy_tool p) := by
      simp [fetch_dx_tool_suggestions, handle_raw_content, validate_and_normalize,
            normalize_solution_shape, promote_legacy_tool, h1, h2, h3, h4, h5]
    intro q hq
    rw [hfetch] at hq
    injection hq with hq
    subst hq
    simp [promote_legacy_tool, h4]
  · intro ha1 ha2
    refine ⟨ai.tool.getD "利用可能な最適なDXツール", ?_, ?_⟩ <;>
      simp [App.forced_solution, ha1, ha2]

/-- Witness for the amended claim C7, at the promoted legacy payload of the
spec's round-trip example. -/
theorem primary_tool_in_tools_promoted_paths_witness :
    ((⟨some "solution", some "m", none, some ["Tool A"], some "Tool A", some "Tool A",
        some [⟨"Tool A", "主要な解決手段", ["t1"]⟩], some ["t1"]⟩ :
        ParsedResponse).primary_tool = some "Tool A" ∧
      "Tool A" ∈ ((⟨some "solution", some "m", none, some ["Tool A"], some "Tool A",
        some "Tool A", some [⟨"Tool A", "主要な解決手段", ["t1"]⟩], some ["t1"]⟩ :
        ParsedResponse).tools.getD [])) := by
  have h := (primary_tool_in_tools_promoted_paths
    ⟨some "solution", some "m", none, none, some "Tool A", none, none, some ["t1"]⟩
    "Tool A" "m" ["t1"]
    ⟨some "questions", some "m", none, none, none, none, none, none⟩ "m"
    rfl rfl rfl rfl rfl).1
    ⟨some "solution", some "m", none, some ["Tool A"], some "Tool A", some "Tool A",
      some [⟨"Tool A", "主要な解決手段", ["t1"]⟩], some ["t1"]⟩ (by rfl)
  exact h

/-- helper: the loop stops at the first blank answer. -/
theorem collect_answers_first_blank {answers : List (String × String)} {q : String}
    (h : first_blank answers = some q) :
    (collect_answers answers).1 = false ∧
    (collect_answers answers).2.2 = ["質問「" ++ q ++ "」に回答してください。"] := by
  induction answers with
  | nil => simp [first_blank] at h
  | cons qa rest ih =>
    by_cases hb : qa.2 = ""
    · simp [first_blank, hb] at h
      subst h
      simp [collect_answers, hb]
    · simp [first_blank, hb] at h
      have hrec := ih h
      simp [collect_answers, hb, hrec.1, hrec.2]

/-- Counterexample to claim C8 as stated: submitting two blank answers
surfaces only one validation warning (for the first blank question), not one
warning per missing answer — the validation loop breaks at the first blank. -/
theorem blank_answers_single_warning_cex :
    (App.process_user_answers empty_session_state [("q1", ""), ("q2", "")]).2 =
      ["質問「q1」に回答してください。"] ∧
    (App.process_user_answers empty_session_state [("q1", ""), ("q2", "")]).1 =
      empty_session_state :=
  ⟨rfl, rfl⟩

/-- Claim C8 amended: if any answer of the submission is blank, both
variants' answer processing leave the entire session state unchanged (stage,
chat history and round counter included) and surface exactly one validation
warning, naming the first blank question in submission order. -/
theorem blank_answer_frame (s : SessionState) (answers : List (String × String)) (q : String)
    (h : first_blank answers = some q) :
    (App.process_user_answers s answers).1 = s ∧
    (App.process_user_answers s answers).2 = ["質問「" ++ q ++ "」に回答してください。"] ∧
    (SU.process_user_answers s answers).1 = s ∧
    (SU.process_user_answers s answers).2 = ["質問「" ++ q ++ "」に回答してください。"] := by
  obtain ⟨h1, h2⟩ := collect_answers_first_blank h
  refine ⟨?_, ?_, ?_, ?_⟩ <;> simp [App.process_user_answers, SU.process_user_answers, h1, h2]

/-- Witness for the amended claim C8, at a submission with two blank
answers. -/
theorem blank_answer_frame_witness :
    (App.process_user_answers empty_session_state [("q1", ""), ("q2", "")]).1 =
      empty_session_state ∧
    (App.process_user_answers empty_session_state [("q1", ""), ("q2", "")]).2 =
      ["質問「" ++ "q1" ++ "」に回答してください。"] :=
  have h := blank_answer_frame empty_session_state [("q1", ""), ("q2", "")] "q1" rfl
  ⟨h.1, h.2.1⟩
/-- helper: the single-step questions handler never changes the counter. -/
theorem questions_response_counter_eq {s s1 : SessionState} {ai : ParsedResponse}
    (h : App.handle_questions_response s ai = some s1) :
    s1.question_counter = s.question_counter := by
  unfold App.handle_questions_response at h
  split at h
  · split at h
    · exact absurd h (by simp)
    · injection h with h
      subst h
      rfl
  · split at h
    · exact absurd h (by simp)
    · injection h with h
      subst h
      rfl

/-- helper: the single-step response handler never changes the counter. -/
theorem single_step_counter_eq {s s1 : SessionState} {ai : Option ParsedResponse}
    (h : App.handle_single_step_ai_response s ai = some s1) :
    s1.question_counter = s.question_counter := by
  cases ai with
  | none =>
    simp only [App.handle_single_step_ai_response] at h
    injection h with h
    subst h
    rfl
  | some r =>
    simp only [App.handle_single_step_ai_response] at h
    by_cases ht : r.type = some "error"
    · rw [if_pos ht] at h
      injection h with h
      subst h
      rfl
    · rw [if_neg ht] at h
      cases hm : r.message with
      | none =>
        rw [hm] at h
        exact absurd h (by simp)
      | some m =>
        rw [hm] at h
        cases htt : r.type with
        | none =>
          rw [htt] at h
          exact absurd h (by simp)
        | some t =>
          rw [htt] at h
          dsimp only at h
          by_cases hq : t = "questions"
          · rw [if_pos hq] at h
            exact (questions_response_counter_eq h).trans rfl
          · rw [if_neg hq] at h
            by_cases hsol : t = "solution"
            · rw [if_pos hsol] at h
              injection h with h
              subst h
              rfl
            · rw [if_neg hsol] at h
              injection h with h
              subst h
              rfl
/-- helper: answer submission never decreases the counter. -/
theorem process_answers_counter_le (s : SessionState) (answers : List (String × String)) :
    s.question_counter ≤ (App.process_user_answers s answers).1.question_counter := by
  unfold App.process_user_answers
  split
  · simp [App.update_session_with_answers]
  · exact le_refl _

/-- helper: an ordinary event (model response or answer submission) never
decreases the counter. -/
theorem step_ordinary_counter_le {s s1 : SessionState} {e : Event}
    (he : ordinaryEvent e = true) (hs : step s e = some s1) :
    s.question_counter ≤ s1.question_counter := by
  cases e with
  | firstQuestion input => exact absurd he (by simp [ordinaryEvent])
  | reset => exact absurd he (by simp [ordinaryEvent])
  | aiResponse ai =>
    exact le_of_eq (single_step_counter_eq hs).symm
  | submitAnswers answers =>
    unfold step at hs
    injection hs with hs
    subst hs
    exact process_answers_counter_le s answers

/-- helper: the counter is non-decreasing along runs of ordinary events. -/
theorem run_ordinary_counter_le {es : List Event} :
    ∀ {s s' : SessionState}, (∀ e ∈ es, ordinaryEvent e = true) →
      run s es = some s' → s.question_counter ≤ s'.question_counter := by
  induction es with
  | nil =>
    intro s s' _ hrun
    unfold run at hrun
    injection hrun with hrun
    subst hrun
    exact le_refl _
  | cons e es ih =>
    intro s s' hall hrun
    unfold run at hrun
    cases hstep : step s e with
    | none => rw [hstep] at hrun; exact absurd hrun (by simp)
    | some s1 =>
      rw [hstep] at hrun
      have h1 := step_ordinary_counter_le (hall e (by simp)) hstep
      exact le_trans h1 (ih (fun e' he' => hall e' (List.mem_cons_of_mem _ he')) hrun)

/-- Counterexample to claim C5 as stated: along a reset-free sequence of
transitions — first question (counter 1), questions response, completed
answer submission (counter 2), then a second first-question submission —
`question_counter` drops from 2 back to 1, because `handle_first_question`
assigns 1 instead of incrementing. -/
theorem round_counter_decreases_cex :
    (run empty_session_state [.firstQuestion "q0",
        .aiResponse (some ⟨some "questions", some "m", some ["q1"], none, none, none, none, none⟩),
        .submitAnswers [("q1", "a1")]]).map SessionState.question_counter = some 2 ∧
    (run empty_session_state [.firstQuestion "q0",
        .aiResponse (some ⟨some "questions", some "m", some ["q1"], none, none, none, none, none⟩),
        .submitAnswers [("q1", "a1")],
        .firstQuestion "q0"]).map SessionState.question_counter = some 1 :=
  ⟨rfl, rfl⟩

/-- Claim C5 amended: `question_counter` is non-decreasing along any
sequence of ordinary transitions (model-response handling and answer
submission); a first-question submission sets it to exactly 1 (hence can
decrease it when re-submitted after completed rounds), reset sets it to 0,
and a completed answer submission increments it by exactly one. -/
theorem round_counter_policy (s : SessionState) (es : List Event) (s' : SessionState)
    (h : ∀ e ∈ es, ordinaryEvent e = true)
    (hrun : run s es = some s') :
    s.question_counter ≤ s'.question_counter ∧
    (∀ input, (App.handle_first_question s input).question_counter = 1) ∧
    (clear_data_callback s).question_counter = 0 ∧
    (∀ answers, (collect_answers answers).1 = true →
      (App.process_user_answers s answers).1.question_counter = s.question_counter + 1) := by
  refine ⟨run_ordinary_counter_le h hrun, fun _ => rfl, rfl, ?_⟩
  intro answers ha
  simp [App.process_user_answers, ha, App.update_session_with_answers]

/-- Witness for the amended claim C5, at a single completed answer
submission from the fresh state. -/
theorem round_counter_policy_witness :
    empty_session_state.question_counter ≤
      (App.process_user_answers empty_session_state [("q1", "a1")]).1.question_counter ∧
    (App.process_user_answers empty_session_state [("q1", "a1")]).1.question_counter =
      empty_session_state.question_counter + 1 := by
  have h := round_counter_policy empty_session_state [.submitAnswers [("q1", "a1")]]
    (App.process_user_answers empty_session_state [("q1", "a1")]).1
    (by intro e he; simp at he; subst he; rfl) rfl
  exact ⟨h.1, h.2.2.2 [("q1", "a1")] rfl⟩
end TalkToMyUseCases
